import Mathlib

/-!
# Verification of the TMS-FORJA freight-audit engine

Shallow embedding of the core logic of `src/server.ts`:
the CT-e document pipeline (`processXml`), the spreadsheet
reconciliation engine (`POST /api/table-imports/upload` handler), and the
contest/waive operations on audit records and memory calculations.

Conventions of the embedding:
* JavaScript numbers are modelled as rationals (`ℚ`); the tolerances
  `0.01` and `0.05` of the source become `1/100` and `5/100`.
* `parseFloat` is modelled by `jsParseFloat : String → Option ℚ`, where
  `none` stands for JavaScript `NaN` (no numeric value parsed).
* SQLite tables are modelled as Lean lists of records; a `SELECT ... LIMIT 1`
  (and better-sqlite3's `.get`) is `List.find?`, an `UPDATE ... WHERE id = ?`
  is a `List.map` guarded on the id, an `INSERT` is an append.
* Database columns irrelevant to every claim (timestamps, route/tax columns,
  the raw-JSON payload of import errors) are omitted from the record types;
  all columns any claim mentions are kept with their source names.
-/

namespace TmsForja

/-! ## Data model (schema of `src/server.ts`, lines 38-163) -/

/-- A row of the `carriers` table. -/
structure Carrier where
  id : ℕ
  tenant_id : ℕ
  name : String
  cnpj : String
deriving DecidableEq

/-- A row of the `freight_tables` table (`is_active INTEGER DEFAULT 1`
modelled as a `Bool`). -/
structure FreightTable where
  id : ℕ
  tenant_id : ℕ
  carrier_id : ℕ
  name : String
  version : String
  is_active : Bool
deriving DecidableEq

/-- A row of the `weight_ranges` table. -/
structure WeightRange where
  id : ℕ
  table_id : ℕ
  min_weight : ℚ
  max_weight : ℚ
  base_value : ℚ
  kg_extra_value : ℚ
deriving DecidableEq

/-- A row of the `ctes` table (ShipmentRecord).  The schema declares
`status TEXT DEFAULT 'pending'` (line 105); `ctesDefaultStatus` records
that default. -/
structure Cte where
  id : ℕ
  tenant_id : ℕ
  xml_key : String
  carrier_cnpj : String
  tomador_cnpj : String
  total_value : ℚ
  weight : ℚ
  status : String
deriving DecidableEq

/-- The schema default for `ctes.status` (line 105 of `src/server.ts`). -/
def ctesDefaultStatus : String := "pending"

/-- A row of the `audits` table (AuditRecord). -/
structure Audit where
  id : ℕ
  cte_id : ℕ
  calculated_value : ℚ
  difference : ℚ
  divergence_type : Option String
  status : String
  contestation_reason : Option String
deriving DecidableEq

/-- A row of the `memory_calculations` table (ReconciliationRow).
`id` is the autoincrement key assigned by the store. -/
structure MemoryCalculation where
  id : ℕ
  codigo : String
  soltransp : String
  origem : String
  destino : String
  peso : ℚ
  frete_valor : ℚ
  obs : String
  icms : ℚ
  pedagios : ℚ
  seguro : ℚ
  frete_peso : ℚ
  frete_all_in : ℚ
  calculated_total : ℚ
  status : String
deriving DecidableEq

/-- The relational store, restricted to the tables the document pipeline
touches. `nextCteId`/`nextAuditId` model the autoincrement counters. -/
structure Db where
  carriers : List Carrier
  freight_tables : List FreightTable
  weight_ranges : List WeightRange
  ctes : List Cte
  audits : List Audit
  nextCteId : ℕ
  nextAuditId : ℕ
deriving DecidableEq

/-! ## Store lookups used by `processXml` -/

/-- `SELECT id FROM ctes WHERE xml_key = ?` (line 236). -/
def findCte (db : Db) (key : String) : Option Cte :=
  db.ctes.find? (fun c => c.xml_key == key)

/-- `SELECT id FROM carriers WHERE cnpj = ?` (line 286). -/
def findCarrier (db : Db) (cnpj : String) : Option Carrier :=
  db.carriers.find? (fun c => c.cnpj == cnpj)

/-- `SELECT id FROM freight_tables WHERE tenant_id = ? AND carrier_id = ?
AND is_active = 1 LIMIT 1` (line 287): first active match wins. -/
def findActiveTable (db : Db) (tenantId carrierId : ℕ) : Option FreightTable :=
  db.freight_tables.find?
    (fun t => t.tenant_id == tenantId && t.carrier_id == carrierId && t.is_active)

/-- `SELECT * FROM weight_ranges WHERE table_id = ? AND ? BETWEEN min_weight
AND max_weight` (line 293); SQL `BETWEEN` is inclusive on both ends. -/
def findWeightRange (db : Db) (tableId : ℕ) (w : ℚ) : Option WeightRange :=
  db.weight_ranges.find?
    (fun r => r.table_id == tableId && decide (r.min_weight ≤ w) && decide (w ≤ r.max_weight))

/-! ## Charge Calculator (lines 294-298) -/

/-- Lines 295-298 of `src/server.ts`:
`calculated = weightRange.base_value;
 if (weightRange.kg_extra_value > 0 && weight > weightRange.min_weight)
   calculated += (weight - weightRange.min_weight) * weightRange.kg_extra_value;` -/
def calcCharge (r : WeightRange) (weight : ℚ) : ℚ :=
  if r.kg_extra_value > 0 ∧ weight > r.min_weight then
    r.base_value + (weight - r.min_weight) * r.kg_extra_value
  else
    r.base_value

/-! ## Rate Resolver + Charge Calculator composition (lines 286-306) -/

/-- Lines 286-306: resolve the carrier by CNPJ, then its first active
freight table, then the weight band containing `weight`; compute the
calculated charge or fall back to the declared value with a structural
divergence type (`table_error` / `weight_error`). -/
def resolveCalc (db : Db) (tenantId : ℕ) (carrierCnpj : String)
    (weight totalValue : ℚ) : ℚ × Option String :=
  match findCarrier db carrierCnpj with
  | none => (totalValue, some "table_error")
  | some carrier =>
    match findActiveTable db tenantId carrier.id with
    | none => (totalValue, some "table_error")
    | some table =>
      match findWeightRange db table.id weight with
      | none => (totalValue, some "weight_error")
      | some range => (calcCharge range weight, none)

/-! ## Divergence Classifier (lines 308-311) -/

/-- Lines 308-311:
`const diff = totalValue - calculated;
 if (Math.abs(diff) > 0.01) divergenceType = divergenceType || 'value_divergence';`
The JavaScript `||` on the (never-empty) structural type string is
`Option.getD`; the local `diff` of the source is inlined. -/
def classifyAudit (declared calculated : ℚ) (structural : Option String) :
    ℚ × Option String :=
  (declared - calculated,
   if |declared - calculated| > 1/100 then some (structural.getD "value_divergence")
   else structural)

/-! ## The per-document pipeline `processXml` (lines 221-319)

The extraction steps (lines 222-277) produce the fields below; extraction
of the declared total value is modelled separately (`extractTotalValue`)
because claim C7 is about its parsing behaviour.  `processXml` here takes
the already-extracted document. -/

/-- The fields `processXml` extracts from a CT-e document and then
persists (lines 232-270). -/
structure CteDoc where
  xmlKey : String
  carrierCnpj : String
  tomadorCnpj : String
  totalValue : ℚ
  weight : ℚ
deriving DecidableEq

/-- The outcome object `processXml` returns (lines 239 and 318). -/
structure XmlOutcome where
  success : Bool
  message : Option String
  cteId : Option ℕ
  xmlKey : String
deriving DecidableEq

/-- The `ctes` row inserted by lines 279-284: status is the literal
`'audited'` passed to the INSERT, not the schema default. -/
def mkCte (db : Db) (tenantId : ℕ) (doc : CteDoc) : Cte :=
  { id := db.nextCteId, tenant_id := tenantId, xml_key := doc.xmlKey,
    carrier_cnpj := doc.carrierCnpj, tomador_cnpj := doc.tomadorCnpj,
    total_value := doc.totalValue, weight := doc.weight, status := "audited" }

/-- The `audits` row inserted by lines 313-316, with the calculated value
from lines 286-306 and the difference/divergence type from lines 308-311.
Status defaults to `'open'` (schema line 116). -/
def mkAudit (db : Db) (tenantId : ℕ) (doc : CteDoc) : Audit :=
  { id := db.nextAuditId, cte_id := db.nextCteId,
    calculated_value :=
      (resolveCalc db tenantId doc.carrierCnpj doc.weight doc.totalValue).1,
    difference :=
      (classifyAudit doc.totalValue
        (resolveCalc db tenantId doc.carrierCnpj doc.weight doc.totalValue).1
        (resolveCalc db tenantId doc.carrierCnpj doc.weight doc.totalValue).2).1,
    divergence_type :=
      (classifyAudit doc.totalValue
        (resolveCalc db tenantId doc.carrierCnpj doc.weight doc.totalValue).1
        (resolveCalc db tenantId doc.carrierCnpj doc.weight doc.totalValue).2).2,
    status := "open", contestation_reason := none }

/-- Lines 236-318 of `src/server.ts`: duplicate guard, insert of the
`ctes` row with status `'audited'`, rate resolution, charge calculation,
divergence classification, insert of the `audits` row with status
`'open'`. -/
def processXml (db : Db) (tenantId : ℕ) (doc : CteDoc) : XmlOutcome × Db :=
  if (findCte db doc.xmlKey).isSome then
    ({ success := false, message := some "CT-e já importado.",
       cteId := none, xmlKey := doc.xmlKey }, db)
  else
    ({ success := true, message := none, cteId := some db.nextCteId,
       xmlKey := doc.xmlKey },
     { db with ctes := db.ctes ++ [mkCte db tenantId doc],
               audits := db.audits ++ [mkAudit db tenantId doc],
               nextCteId := db.nextCteId + 1,
               nextAuditId := db.nextAuditId + 1 })

/-- Lines 340 and 351 of the batch handler:
`if (result.success) processedCount++; else errorCount++;`. -/
def tallyOutcome (counts : ℕ × ℕ) (o : XmlOutcome) : ℕ × ℕ :=
  if o.success then (counts.1 + 1, counts.2) else (counts.1, counts.2 + 1)

/-! ## JavaScript numeric parsing (`parseFloat`, `getNum`)

`jsParseFloat` models `parseFloat` on decimal literals: skip leading
whitespace, optional sign, integer digits, optional `.` and fraction
digits; `none` models `NaN` (no digits readable).  Exponents and
`Infinity` never occur in this system's inputs and are not modelled. -/

/-- Whitespace skipped by `parseFloat`. -/
def isJsSpace (c : Char) : Bool :=
  c == ' ' || c == '\t' || c == '\n' || c == '\r'

/-- Value of a digit string, most significant digit first. -/
def digitsToNat (l : List Char) : ℕ :=
  l.foldl (fun acc c => acc * 10 + (c.toNat - 48)) 0

/-- Optional leading sign of a number literal. -/
def signSplit (cs : List Char) : ℚ × List Char :=
  match cs with
  | '-' :: rest => (-1, rest)
  | '+' :: rest => (1, rest)
  | _ => (1, cs)

/-- Model of JavaScript `parseFloat`; `none` models `NaN`. -/
def jsParseFloat (s : String) : Option ℚ :=
  let cs := s.data.dropWhile isJsSpace
  let sp := signSplit cs
  let intPart := sp.2.takeWhile Char.isDigit
  let afterInt := sp.2.dropWhile Char.isDigit
  let fracPart :=
    match afterInt with
    | '.' :: rest => rest.takeWhile Char.isDigit
    | _ => []
  if intPart.isEmpty && fracPart.isEmpty then none
  else some (sp.1 * ((digitsToNat intPart : ℚ) +
    (digitsToNat fracPart : ℚ) / (10 : ℚ) ^ fracPart.length))

/-- JavaScript `x || d` for an optional string field: the default is used
when the field is absent (`undefined`) or the empty string (both falsy). -/
def jsOrDefault (v : Option String) (d : String) : String :=
  match v with
  | none => d
  | some s => if s = "" then d else s

/-- Line 243 of `src/server.ts`:
`const totalValue = parseFloat(infCte.vPrest?.vTPrest || "0");`
Extraction of the declared total value; `none` models `NaN`. -/
def extractTotalValue (vTPrest : Option String) : Option ℚ :=
  jsParseFloat (jsOrDefault vTPrest "0")

/-- A spreadsheet cell as the upload handler sees it: a number, a string,
or anything else. -/
inductive CellVal where
  | num (q : ℚ)
  | str (s : String)
  | other
deriving DecidableEq

/-- JavaScript `val.replace(',', '.')`: only the FIRST comma is replaced. -/
def replaceFirstComma : List Char → List Char
  | [] => []
  | c :: cs => if c = ',' then '.' :: cs else c :: replaceFirstComma cs

/-- Lines 667-671 of the spreadsheet handler: `getNum` — numbers pass
through, strings are parsed after comma-to-dot normalization with `|| 0`
turning `NaN` into `0`, anything else is `0`. -/
def getNum : CellVal → ℚ
  | .num q => q
  | .str s => (jsParseFloat ⟨replaceFirstComma s.data⟩).getD 0
  | .other => 0

/-! ## Spreadsheet Reconciliation Engine (`POST /api/table-imports/upload`,
lines 611-750) -/

/-- A spreadsheet row after the normalization of lines 673-684: text
columns through `String(...).trim()`, numeric columns through `getNum`
(so they are plain rationals, never `NaN`). -/
structure SheetRow where
  codigo : String
  soltransp : String
  origem : String
  destino : String
  obs : String
  peso : ℚ
  frete_valor : ℚ
  icms : ℚ
  pedagios : ℚ
  seguro : ℚ
  frete_peso : ℚ
  frete_all_in : ℚ
deriving DecidableEq

/-- The observable effects of processing one data row (lines 686-719):
counter increments and the rows inserted into `import_errors`
(row number and message; the raw-JSON payload column is omitted) and
`memory_calculations`. -/
structure RowEffects where
  errorsInc : ℕ
  importedInc : ℕ
  insertedError : Option (ℕ × String)
  insertedRow : Option MemoryCalculation
deriving DecidableEq

/-- Lines 686-719 of the spreadsheet handler, for one data row.

Required-field validation sets `errorMsg`; `if (errorMsg)` then records an
`import_errors` row and bumps `errors`.  Otherwise (lines 700-718) a
non-positive `frete_all_in` assigns `errorMsg` a second time — but the
`if (errorMsg)` test has already run and nothing reads the variable again,
so the source records nothing and bumps no counter for such a row.  Else
the row is reconciled and inserted (`imported++`).  Over `ℚ` the source's
`!frete_all_in || frete_all_in <= 0` is `frete_all_in ≤ 0`.  The inserted
row's autoincrement `id` is assigned by the store; `0` stands for it. -/
def processRow (rowNum : ℕ) (row : SheetRow) : RowEffects :=
  if row.codigo = "" ∨ row.soltransp = "" then
    { errorsInc := 1, importedInc := 0,
      insertedError := some (rowNum, "CÓDIGO ou SOLTRANSP ausente ou inválido"),
      insertedRow := none }
  else if row.origem = "" ∨ row.destino = "" then
    { errorsInc := 1, importedInc := 0,
      insertedError := some (rowNum, "ORIGEM ou DESTINO ausente ou inválido"),
      insertedRow := none }
  else if row.frete_all_in ≤ 0 then
    { errorsInc := 0, importedInc := 0, insertedError := none, insertedRow := none }
  else
    { errorsInc := 0, importedInc := 1, insertedError := none,
      insertedRow := some
        { id := 0, codigo := row.codigo, soltransp := row.soltransp,
          origem := row.origem, destino := row.destino, peso := row.peso,
          frete_valor := row.frete_valor, obs := row.obs, icms := row.icms,
          pedagios := row.pedagios, seguro := row.seguro,
          frete_peso := row.frete_peso, frete_all_in := row.frete_all_in,
          calculated_total :=
            row.icms + row.pedagios + row.seguro + row.frete_peso,
          status :=
            if |row.icms + row.pedagios + row.seguro + row.frete_peso -
                row.frete_all_in| ≤ 5/100
            then "CONCILIADO" else "ERRO DE CONCILIAÇÃO" } }

/-! ## Contest / waive operations -/

/-- Line 566: `UPDATE audits SET status = 'contested',
contestation_reason = ? WHERE id = ?`, effect on one matching record. -/
def contestUpdate (reason : String) (a : Audit) : Audit :=
  { a with status := "contested", contestation_reason := some reason }

/-- The `POST /api/contest` handler (lines 564-568).  `reason` is
`req.body.reason`; when the field is absent (`none`, JavaScript
`undefined`) the store driver rejects the parameter binding and throws
before any row changes — modelled as `Except.error`. -/
def contestRun (db : Db) (auditId : ℕ) (reason : Option String) :
    Except String Db :=
  match reason with
  | none => Except.error "Binding undefined parameter is not supported"
  | some r =>
    Except.ok { db with
      audits := db.audits.map
        (fun a => if a.id = auditId then contestUpdate r a else a) }

/-- Line 580: `UPDATE audits SET status = 'waived' WHERE id = ?`, effect
on one matching record. -/
def waiveUpdate (a : Audit) : Audit := { a with status := "waived" }

/-- The `PUT /api/audits/:id/waive` handler (lines 579-582). -/
def waiveRun (db : Db) (auditId : ℕ) : Db :=
  { db with
    audits := db.audits.map
      (fun a => if a.id = auditId then waiveUpdate a else a) }

/-- Line 431: `UPDATE memory_calculations SET status = 'ABONADO'
WHERE id = ?`, effect on one matching record. -/
def abonoUpdate (m : MemoryCalculation) : MemoryCalculation :=
  { m with status := "ABONADO" }

/-- The `PUT /api/memory-calculations/:id/waive` handler (lines 430-433). -/
def memoryWaiveRun (rows : List MemoryCalculation) (mid : ℕ) :
    List MemoryCalculation :=
  rows.map (fun m => if m.id = mid then abonoUpdate m else m)

/-! ## Concrete fixtures used in witness theorems -/

/-- Concrete band used in witnesses: the seeded range
`(min 0, max 1000, base 500, perExtraKg 0.5)` of line 173. -/
def wbSeed : WeightRange :=
  { id := 1, table_id := 1, min_weight := 0, max_weight := 1000,
    base_value := 500, kg_extra_value := 1/2 }

/-- An empty store (no carriers, tables, bands, ctes or audits). -/
def dbEmpty : Db :=
  { carriers := [], freight_tables := [], weight_ranges := [],
    ctes := [], audits := [], nextCteId := 1, nextAuditId := 1 }

/-- A concrete extracted document used in witnesses. -/
def docA : CteDoc :=
  { xmlKey := "KEY1", carrierCnpj := "35856333000100",
    tomadorCnpj := "11222333000144", totalValue := 100, weight := 100 }

/-- The `ctes` row that processing `docA` against `dbEmpty` creates
(`nextCteId = 1`, tenant 1, status `'audited'`). -/
def cteA : Cte :=
  { id := 1, tenant_id := 1, xml_key := "KEY1",
    carrier_cnpj := "35856333000100", tomador_cnpj := "11222333000144",
    total_value := 100, weight := 100, status := "audited" }

/-- A store already holding `docA`'s key, used for duplicate-guard
witnesses. -/
def dbWithCte : Db :=
  { carriers := [], freight_tables := [], weight_ranges := [],
    ctes := [cteA], audits := [], nextCteId := 2, nextAuditId := 1 }

/-- An audit record already in the `contested` state (a "terminal" state
per the spec), used in contest/waive witnesses. -/
def auditContested : Audit :=
  { id := 7, cte_id := 1, calculated_value := 550, difference := 50,
    divergence_type := some "value_divergence", status := "contested",
    contestation_reason := some "motivo antigo" }

/-- A store holding `auditContested`. -/
def dbAudit : Db :=
  { carriers := [], freight_tables := [], weight_ranges := [],
    ctes := [cteA], audits := [auditContested], nextCteId := 2, nextAuditId := 8 }

/-- A persisted memory-calculation row in the error state. -/
def memErro : MemoryCalculation :=
  { id := 3, codigo := "A1", soltransp := "T1", origem := "SP", destino := "RJ",
    peso := 10, frete_valor := 0, obs := "", icms := 12, pedagios := 5,
    seguro := 3/2, frete_peso := 163/2, frete_all_in := 50,
    calculated_total := 100, status := "ERRO DE CONCILIAÇÃO" }

/-- The spec's round-trip spreadsheet row:
`icms=12, pedagios=5, seguro=1.5, frete_peso=81.5, frete_all_in=100`. -/
def rowGood : SheetRow :=
  { codigo := "A1", soltransp := "T1", origem := "SP", destino := "RJ",
    obs := "", peso := 10, frete_valor := 0, icms := 12, pedagios := 5,
    seguro := 3/2, frete_peso := 163/2, frete_all_in := 100 }

/-- The same row with `frete_all_in = 0`: passes required-field validation
but has a non-positive declared all-in total. -/
def rowNoAllIn : SheetRow :=
  { rowGood with frete_all_in := 0 }

/-! ## Theorems -/

/-- C1: within a matched weight band (`minWeight ≤ weight ≤ maxWeight`) with
base value `b` and marginal rate `r ≥ 0`, the Charge Calculator returns
`b`, plus `(weight - minWeight) * r` added exactly when `r > 0` and
`weight > minWeight`; equivalently `calculated(w) = b + r * max 0 (w - min)`. -/
theorem calcCharge_band_formula (r : WeightRange) (w : ℚ)
    (hmin : r.min_weight ≤ w) (hmax : w ≤ r.max_weight)
    (hr : 0 ≤ r.kg_extra_value) :
    calcCharge r w = r.base_value + r.kg_extra_value * max 0 (w - r.min_weight) ∧
    (r.kg_extra_value > 0 ∧ w > r.min_weight →
      calcCharge r w = r.base_value + (w - r.min_weight) * r.kg_extra_value) ∧
    (¬(r.kg_extra_value > 0 ∧ w > r.min_weight) → calcCharge r w = r.base_value) := by
  unfold calcCharge
  by_cases h : r.kg_extra_value > 0 ∧ w > r.min_weight
  · have hw : (0 : ℚ) ≤ w - r.min_weight := by linarith [h.2]
    have hmx : max 0 (w - r.min_weight) = w - r.min_weight := max_eq_right hw
    refine ⟨?_, fun _ => by rw [if_pos h], fun hc => absurd h hc⟩
    rw [if_pos h, hmx]
    ring
  · refine ⟨?_, fun hc => absurd hc h, fun _ => by rw [if_neg h]⟩
    rw [if_neg h]
    rcases not_and_or.mp h with h1 | h2
    · have hz : r.kg_extra_value = 0 := le_antisymm (not_lt.mp h1) hr
      simp [hz]
    · have hw : w - r.min_weight ≤ 0 := by linarith [not_lt.mp h2]
      have hmx : max 0 (w - r.min_weight) = 0 := max_eq_left (by linarith)
      simp [hmx]

/-- Witness for C1 at weight 100 on the seeded band. -/
theorem calcCharge_band_formula_witness :
    calcCharge wbSeed 100 =
      wbSeed.base_value + wbSeed.kg_extra_value * max 0 (100 - wbSeed.min_weight) :=
  (calcCharge_band_formula wbSeed 100 (by norm_num [wbSeed])
    (by norm_num [wbSeed]) (by norm_num [wbSeed])).1

/-! ### Helper lemmas about the resolver, classifier and pipeline -/

theorem resolveCalc_no_carrier (db : Db) (t : ℕ) (cnpj : String) (w tv : ℚ)
    (h : findCarrier db cnpj = none) :
    resolveCalc db t cnpj w tv = (tv, some "table_error") := by
  unfold resolveCalc
  rw [h]

theorem resolveCalc_no_table (db : Db) (t : ℕ) (cnpj : String) (w tv : ℚ)
    (c : Carrier) (h1 : findCarrier db cnpj = some c)
    (h2 : findActiveTable db t c.id = none) :
    resolveCalc db t cnpj w tv = (tv, some "table_error") := by
  unfold resolveCalc
  rw [h1]
  show (match findActiveTable db t c.id with
    | none => (tv, some "table_error")
    | some table =>
      match findWeightRange db table.id w with
      | none => (tv, some "weight_error")
      | some range => (calcCharge range w, none)) = (tv, some "table_error")
  rw [h2]

theorem resolveCalc_no_range (db : Db) (t : ℕ) (cnpj : String) (w tv : ℚ)
    (c : Carrier) (tb : FreightTable) (h1 : findCarrier db cnpj = some c)
    (h2 : findActiveTable db t c.id = some tb)
    (h3 : findWeightRange db tb.id w = none) :
    resolveCalc db t cnpj w tv = (tv, some "weight_error") := by
  unfold resolveCalc
  rw [h1]
  show (match findActiveTable db t c.id with
    | none => (tv, some "table_error")
    | some table =>
      match findWeightRange db table.id w with
      | none => (tv, some "weight_error")
      | some range => (calcCharge range w, none)) = (tv, some "weight_error")
  rw [h2]
  show (match findWeightRange db tb.id w with
    | none => (tv, some "weight_error")
    | some range => (calcCharge range w, none)) = (tv, some "weight_error")
  rw [h3]

theorem resolveCalc_with_range (db : Db) (t : ℕ) (cnpj : String) (w tv : ℚ)
    (c : Carrier) (tb : FreightTable) (r : WeightRange)
    (h1 : findCarrier db cnpj = some c)
    (h2 : findActiveTable db t c.id = some tb)
    (h3 : findWeightRange db tb.id w = some r) :
    resolveCalc db t cnpj w tv = (calcCharge r w, none) := by
  unfold resolveCalc
  rw [h1]
  show (match findActiveTable db t c.id with
    | none => (tv, some "table_error")
    | some table =>
      match findWeightRange db table.id w with
      | none => (tv, some "weight_error")
      | some range => (calcCharge range w, none)) = (calcCharge r w, none)
  rw [h2]
  show (match findWeightRange db tb.id w with
    | none => (tv, some "weight_error")
    | some range => (calcCharge range w, none)) = (calcCharge r w, none)
  rw [h3]

theorem resolveCalc_snd_cases (db : Db) (t : ℕ) (cnpj : String) (w tv : ℚ) :
    (resolveCalc db t cnpj w tv).2 = none ∨
    (resolveCalc db t cnpj w tv).2 = some "table_error" ∨
    (resolveCalc db t cnpj w tv).2 = some "weight_error" := by
  cases h1 : findCarrier db cnpj with
  | none => rw [resolveCalc_no_carrier db t cnpj w tv h1]; right; left; rfl
  | some c =>
    cases h2 : findActiveTable db t c.id with
    | none => rw [resolveCalc_no_table db t cnpj w tv c h1 h2]; right; left; rfl
    | some tb =>
      cases h3 : findWeightRange db tb.id w with
      | none =>
        rw [resolveCalc_no_range db t cnpj w tv c tb h1 h2 h3]; right; right; rfl
      | some r =>
        rw [resolveCalc_with_range db t cnpj w tv c tb r h1 h2 h3]; left; rfl

theorem classifyAudit_spec (declared calculated : ℚ) (s : Option String)
    (hs : s = none ∨ s = some "table_error" ∨ s = some "weight_error") :
    (classifyAudit declared calculated s).1 = declared - calculated ∧
    ((classifyAudit declared calculated s).2 = some "value_divergence" ↔
      |declared - calculated| > 1/100 ∧ s = none) ∧
    (|declared - calculated| ≤ 1/100 → (classifyAudit declared calculated s).2 = s) := by
  refine ⟨rfl, ?_, ?_⟩
  · show (if |declared - calculated| > 1/100 then some (s.getD "value_divergence")
        else s) = some "value_divergence" ↔
      |declared - calculated| > 1/100 ∧ s = none
    by_cases h : |declared - calculated| > 1/100
    · rw [if_pos h]
      rcases hs with h1 | h1 | h1 <;> subst h1
      · exact ⟨fun _ => ⟨h, rfl⟩, fun _ => rfl⟩
      · refine ⟨fun hx => absurd hx (by decide), ?_⟩
        rintro ⟨-, hx⟩
        exact absurd hx (by decide)
      · refine ⟨fun hx => absurd hx (by decide), ?_⟩
        rintro ⟨-, hx⟩
        exact absurd hx (by decide)
    · rw [if_neg h]
      refine ⟨fun hx => ?_, ?_⟩
      · rcases hs with h1 | h1 | h1 <;> subst h1
        · exact absurd hx (by decide)
        · exact absurd hx (by decide)
        · exact absurd hx (by decide)
      · rintro ⟨hgt, -⟩
        exact absurd hgt h
  · intro hle
    show (if |declared - calculated| > 1/100 then some (s.getD "value_divergence")
        else s) = s
    rw [if_neg (not_lt.mpr hle)]

theorem classifyAudit_declared_eq (tv : ℚ) (s : Option String) :
    classifyAudit tv tv s = (0, s) := by
  unfold classifyAudit
  rw [sub_self]
  norm_num

theorem processXml_eq_dup (db : Db) (t : ℕ) (doc : CteDoc) (c : Cte)
    (h : findCte db doc.xmlKey = some c) :
    processXml db t doc =
      ({ success := false, message := some "CT-e já importado.",
         cteId := none, xmlKey := doc.xmlKey }, db) := by
  unfold processXml
  rw [h]
  rfl

theorem processXml_eq_insert (db : Db) (t : ℕ) (doc : CteDoc)
    (h : findCte db doc.xmlKey = none) :
    processXml db t doc =
      ({ success := true, message := none, cteId := some db.nextCteId,
         xmlKey := doc.xmlKey },
       { db with ctes := db.ctes ++ [mkCte db t doc],
                 audits := db.audits ++ [mkAudit db t doc],
                 nextCteId := db.nextCteId + 1,
                 nextAuditId := db.nextAuditId + 1 }) := by
  unfold processXml
  rw [h]
  rfl

/-! ### C3: value-divergence classification -/

/-- C3: for every audited (non-duplicate) shipment, the persisted audit
record has `difference = declared - calculated`, its divergence type is
`value_divergence` exactly when `|difference| > 0.01` and no structural
type (`table_error`/`weight_error`) was set by resolution, and when
`|difference| ≤ 0.01` with no structural fallback the divergence type is
`null`. -/
theorem audit_value_divergence_rule (db : Db) (t : ℕ) (doc : CteDoc)
    (hdup : findCte db doc.xmlKey = none) :
    ∃ a : Audit, (processXml db t doc).2.audits = db.audits ++ [a] ∧
      a.calculated_value =
        (resolveCalc db t doc.carrierCnpj doc.weight doc.totalValue).1 ∧
      a.difference = doc.totalValue - a.calculated_value ∧
      (a.divergence_type = some "value_divergence" ↔
        |a.difference| > 1/100 ∧
        (resolveCalc db t doc.carrierCnpj doc.weight doc.totalValue).2 = none) ∧
      (|a.difference| ≤ 1/100 ∧
        (resolveCalc db t doc.carrierCnpj doc.weight doc.totalValue).2 = none →
        a.divergence_type = none) := by
  have hins := processXml_eq_insert db t doc hdup
  have hcs := classifyAudit_spec doc.totalValue
    (resolveCalc db t doc.carrierCnpj doc.weight doc.totalValue).1
    (resolveCalc db t doc.carrierCnpj doc.weight doc.totalValue).2
    (resolveCalc_snd_cases db t doc.carrierCnpj doc.weight doc.totalValue)
  refine ⟨mkAudit db t doc, by rw [hins], rfl, ?_, ?_, ?_⟩
  · show (classifyAudit doc.totalValue
      (resolveCalc db t doc.carrierCnpj doc.weight doc.totalValue).1
      (resolveCalc db t doc.carrierCnpj doc.weight doc.totalValue).2).1 =
      doc.totalValue - (resolveCalc db t doc.carrierCnpj doc.weight doc.totalValue).1
    exact hcs.1
  · rw [show (mkAudit db t doc).difference =
      (classifyAudit doc.totalValue
        (resolveCalc db t doc.carrierCnpj doc.weight doc.totalValue).1
        (resolveCalc db t doc.carrierCnpj doc.weight doc.totalValue).2).1 from rfl,
      hcs.1]
    exact hcs.2.1
  · rw [show (mkAudit db t doc).difference =
      (classifyAudit doc.totalValue
        (resolveCalc db t doc.carrierCnpj doc.weight doc.totalValue).1
        (resolveCalc db t doc.carrierCnpj doc.weight doc.totalValue).2).1 from rfl,
      hcs.1]
    rintro ⟨hle, hnone⟩
    have := hcs.2.2 hle
    show (classifyAudit doc.totalValue
      (resolveCalc db t doc.carrierCnpj doc.weight doc.totalValue).1
      (resolveCalc db t doc.carrierCnpj doc.weight doc.totalValue).2).2 = none
    rw [this, hnone]

/-- Witness for C3 on an empty store: resolution falls back with
`table_error`, the difference is `declared - calculated`, and the
divergence type is not `value_divergence`. -/
theorem audit_value_divergence_rule_witness :
    ∃ a : Audit, (processXml dbEmpty 1 docA).2.audits = dbEmpty.audits ++ [a] ∧
      a.calculated_value =
        (resolveCalc dbEmpty 1 docA.carrierCnpj docA.weight docA.totalValue).1 ∧
      a.difference = docA.totalValue - a.calculated_value ∧
      (a.divergence_type = some "value_divergence" ↔
        |a.difference| > 1/100 ∧
        (resolveCalc dbEmpty 1 docA.carrierCnpj docA.weight docA.totalValue).2 = none) ∧
      (|a.difference| ≤ 1/100 ∧
        (resolveCalc dbEmpty 1 docA.carrierCnpj docA.weight docA.totalValue).2 = none →
        a.divergence_type = none) :=
  audit_value_divergence_rule dbEmpty 1 docA (by decide)

/-! ### C4: table_error / weight_error fallbacks -/

/-- C4: when the carrier or its active table cannot be resolved, the audit
record carries `table_error`, calculated equals declared and the difference
is `0`; when the table resolves but no band contains the weight, the audit
record carries `weight_error` with the same fallback. -/
theorem missing_table_or_band_fallback (db : Db) (t : ℕ) (doc : CteDoc)
    (hdup : findCte db doc.xmlKey = none) :
    ((findCarrier db doc.carrierCnpj = none ∨
        ∃ c, findCarrier db doc.carrierCnpj = some c ∧
          findActiveTable db t c.id = none) →
      ∃ a : Audit, (processXml db t doc).2.audits = db.audits ++ [a] ∧
        a.calculated_value = doc.totalValue ∧ a.difference = 0 ∧
        a.divergence_type = some "table_error") ∧
    ((∃ c tb, findCarrier db doc.carrierCnpj = some c ∧
        findActiveTable db t c.id = some tb ∧
        findWeightRange db tb.id doc.weight = none) →
      ∃ a : Audit, (processXml db t doc).2.audits = db.audits ++ [a] ∧
        a.calculated_value = doc.totalValue ∧ a.difference = 0 ∧
        a.divergence_type = some "weight_error") := by
  have hins := processXml_eq_insert db t doc hdup
  constructor
  · intro hfail
    have hrc : resolveCalc db t doc.carrierCnpj doc.weight doc.totalValue =
        (doc.totalValue, some "table_error") := by
      rcases hfail with h | ⟨c, h1, h2⟩
      · exact resolveCalc_no_carrier db t doc.carrierCnpj doc.weight doc.totalValue h
      · exact resolveCalc_no_table db t doc.carrierCnpj doc.weight doc.totalValue c h1 h2
    refine ⟨mkAudit db t doc, by rw [hins], ?_, ?_, ?_⟩
    · show (resolveCalc db t doc.carrierCnpj doc.weight doc.totalValue).1 = doc.totalValue
      rw [hrc]
    · show (classifyAudit doc.totalValue
        (resolveCalc db t doc.carrierCnpj doc.weight doc.totalValue).1
        (resolveCalc db t doc.carrierCnpj doc.weight doc.totalValue).2).1 = 0
      rw [hrc, classifyAudit_declared_eq]
    · show (classifyAudit doc.totalValue
        (resolveCalc db t doc.carrierCnpj doc.weight doc.totalValue).1
        (resolveCalc db t doc.carrierCnpj doc.weight doc.totalValue).2).2 =
        some "table_error"
      rw [hrc, classifyAudit_declared_eq]
  · rintro ⟨c, tb, h1, h2, h3⟩
    have hrc : resolveCalc db t doc.carrierCnpj doc.weight doc.totalValue =
        (doc.totalValue, some "weight_error") :=
      resolveCalc_no_range db t doc.carrierCnpj doc.weight doc.totalValue c tb h1 h2 h3
    refine ⟨mkAudit db t doc, by rw [hins], ?_, ?_, ?_⟩
    · show (resolveCalc db t doc.carrierCnpj doc.weight doc.totalValue).1 = doc.totalValue
      rw [hrc]
    · show (classifyAudit doc.totalValue
        (resolveCalc db t doc.carrierCnpj doc.weight doc.totalValue).1
        (resolveCalc db t doc.carrierCnpj doc.weight doc.totalValue).2).1 = 0
      rw [hrc, classifyAudit_declared_eq]
    · show (classifyAudit doc.totalValue
        (resolveCalc db t doc.carrierCnpj doc.weight doc.totalValue).1
        (resolveCalc db t doc.carrierCnpj doc.weight doc.totalValue).2).2 =
        some "weight_error"
      rw [hrc, classifyAudit_declared_eq]

/-- Witness for C4: on the empty store the carrier does not resolve, so the
audit falls back to the declared value with `table_error`. -/
theorem missing_table_or_band_fallback_witness :
    ∃ a : Audit, (processXml dbEmpty 1 docA).2.audits = dbEmpty.audits ++ [a] ∧
      a.calculated_value = docA.totalValue ∧ a.difference = 0 ∧
      a.divergence_type = some "table_error" :=
  (missing_table_or_band_fallback dbEmpty 1 docA (by decide)).1 (Or.inl (by decide))

/-! ### C8: duplicate document is a non-throwing, non-success no-op -/

/-- C8: submitting a document whose key already has a `ctes` row yields
`{success: false, message: 'CT-e já importado.'}`, leaves the store (in
particular the `ctes` and `audits` tables) unchanged, and the batch tally
counts it in `errorCount`, not `processedCount`. -/
theorem duplicate_idempotent_outcome (db : Db) (t : ℕ) (doc : CteDoc) (c : Cte)
    (hdup : findCte db doc.xmlKey = some c) (p e : ℕ) :
    processXml db t doc =
      ({ success := false, message := some "CT-e já importado.",
         cteId := none, xmlKey := doc.xmlKey }, db) ∧
    (processXml db t doc).2.ctes = db.ctes ∧
    (processXml db t doc).2.audits = db.audits ∧
    tallyOutcome (p, e) (processXml db t doc).1 = (p, e + 1) := by
  have h := processXml_eq_dup db t doc c hdup
  refine ⟨h, by rw [h], by rw [h], by rw [h]; rfl⟩

/-- Witness for C8: re-submitting `docA` against a store that already holds
its key is a counted failure that changes nothing. -/
theorem duplicate_idempotent_outcome_witness :
    processXml dbWithCte 1 docA =
      ({ success := false, message := some "CT-e já importado.",
         cteId := none, xmlKey := docA.xmlKey }, dbWithCte) ∧
    (processXml dbWithCte 1 docA).2.ctes = dbWithCte.ctes ∧
    (processXml dbWithCte 1 docA).2.audits = dbWithCte.audits ∧
    tallyOutcome (3, 4) (processXml dbWithCte 1 docA).1 = (3, 5) :=
  duplicate_idempotent_outcome dbWithCte 1 docA cteA (by decide) 3 4

/-! ### C10: every created shipment record is `'audited'` -/

/-- C10: every `ctes` row in the post-state of `processXml` is either a
pre-existing row or carries status `'audited'` (the literal passed by the
INSERT of lines 279-284), which differs from the schema default
`'pending'`; no operation of the pipeline creates a `'pending'` row. -/
theorem ctes_created_audited (db : Db) (t : ℕ) (doc : CteDoc) (c : Cte)
    (hc : c ∈ (processXml db t doc).2.ctes) :
    (c ∈ db.ctes ∨ c.status = "audited") ∧ "audited" ≠ ctesDefaultStatus := by
  refine ⟨?_, by decide⟩
  cases hfind : findCte db doc.xmlKey with
  | some c0 =>
    rw [processXml_eq_dup db t doc c0 hfind] at hc
    exact Or.inl hc
  | none =>
    rw [processXml_eq_insert db t doc hfind] at hc
    rcases List.mem_append.mp hc with h | h
    · exact Or.inl h
    · right
      rw [List.mem_singleton.mp h]
      rfl

/-- Witness for C10: the record `processXml` inserts into the empty store
is exactly `cteA`, whose status is `'audited'`. -/
theorem ctes_created_audited_witness :
    (cteA ∈ dbEmpty.ctes ∨ cteA.status = "audited") ∧
    "audited" ≠ ctesDefaultStatus :=
  ctes_created_audited dbEmpty 1 docA cteA (by decide)

/-! ### C2: spreadsheet row reconciliation -/

/-- C2: a row that passes required-field validation and has a positive
declared all-in total is persisted with
`calculatedTotal = icms + tolls + insurance + weightFreight` and status
`CONCILIADO` when `|calculatedTotal - allInTotal| ≤ 0.05`, else
`ERRO DE CONCILIAÇÃO`; the row `icms=12, pedagios=5, seguro=1.5,
frete_peso=81.5, frete_all_in=100` yields total `100`, difference `0`,
status `CONCILIADO`. -/
theorem reconcile_row_classification (rowNum : ℕ) (row : SheetRow)
    (hc : row.codigo ≠ "") (hs : row.soltransp ≠ "")
    (ho : row.origem ≠ "") (hd : row.destino ≠ "")
    (hall : 0 < row.frete_all_in) :
    ∃ m : MemoryCalculation,
      (processRow rowNum row).insertedRow = some m ∧
      (processRow rowNum row).insertedError = none ∧
      (processRow rowNum row).importedInc = 1 ∧
      (processRow rowNum row).errorsInc = 0 ∧
      m.calculated_total = row.icms + row.pedagios + row.seguro + row.frete_peso ∧
      m.status = (if |m.calculated_total - row.frete_all_in| ≤ 5/100
        then "CONCILIADO" else "ERRO DE CONCILIAÇÃO") ∧
      (row.icms = 12 ∧ row.pedagios = 5 ∧ row.seguro = 3/2 ∧
        row.frete_peso = 163/2 ∧ row.frete_all_in = 100 →
        m.calculated_total = 100 ∧
        |m.calculated_total - row.frete_all_in| = 0 ∧
        m.status = "CONCILIADO") := by
  unfold processRow
  rw [if_neg (not_or.mpr ⟨hc, hs⟩), if_neg (not_or.mpr ⟨ho, hd⟩),
    if_neg (not_le.mpr hall)]
  refine ⟨_, rfl, rfl, rfl, rfl, rfl, rfl, ?_⟩
  rintro ⟨h1, h2, h3, h4, h5⟩
  refine ⟨?_, ?_, ?_⟩
  · show row.icms + row.pedagios + row.seguro + row.frete_peso = 100
    rw [h1, h2, h3, h4]
    norm_num
  · show |row.icms + row.pedagios + row.seguro + row.frete_peso -
      row.frete_all_in| = 0
    rw [h1, h2, h3, h4, h5]
    norm_num
  · show (if |row.icms + row.pedagios + row.seguro + row.frete_peso -
        row.frete_all_in| ≤ 5/100
      then "CONCILIADO" else "ERRO DE CONCILIAÇÃO") = "CONCILIADO"
    rw [h1, h2, h3, h4, h5, if_pos (by norm_num)]

/-- Witness for C2: the spec's round-trip row reconciles with total 100. -/
theorem reconcile_row_classification_witness :
    ∃ m : MemoryCalculation,
      (processRow 2 rowGood).insertedRow = some m ∧
      (processRow 2 rowGood).insertedError = none ∧
      (processRow 2 rowGood).importedInc = 1 ∧
      (processRow 2 rowGood).errorsInc = 0 ∧
      m.calculated_total =
        rowGood.icms + rowGood.pedagios + rowGood.seguro + rowGood.frete_peso ∧
      m.status = (if |m.calculated_total - rowGood.frete_all_in| ≤ 5/100
        then "CONCILIADO" else "ERRO DE CONCILIAÇÃO") ∧
      (rowGood.icms = 12 ∧ rowGood.pedagios = 5 ∧ rowGood.seguro = 3/2 ∧
        rowGood.frete_peso = 163/2 ∧ rowGood.frete_all_in = 100 →
        m.calculated_total = 100 ∧
        |m.calculated_total - rowGood.frete_all_in| = 0 ∧
        m.status = "CONCILIADO") :=
  reconcile_row_classification 2 rowGood (by decide) (by decide) (by decide)
    (by decide) (by decide)

/-! ### C5: non-positive all-in total (code bug) -/

/-- C5, code evaluated at the failing input: `rowNoAllIn` passes
required-field validation but has `frete_all_in = 0`; the source sets the
"conciliação impossível" message AFTER the `if (errorMsg)` check already
ran, so the row produces NO effects: no `import_errors` row, no
error-count increment — and also no `memory_calculations` row.  The spec
(and the dead assignment's own message) expect a persisted row error and
an incremented error count. -/
theorem allin_invalid_row_dropped :
    processRow 2 rowNoAllIn =
      { errorsInc := 0, importedInc := 0,
        insertedError := none, insertedRow := none } := by
  decide

/-! ### C6: contest requires a reason -/

/-- C6: contesting without a reason fails before any state change (the
handler returns an error, no update runs); with a reason the matching
audit record is persisted with status `contested` and the reason stored. -/
theorem contest_requires_reason (db : Db) (auditId : ℕ) (a : Audit)
    (ha : a ∈ db.audits) (hid : a.id = auditId) (r : String) :
    (∃ msg, contestRun db auditId none = Except.error msg) ∧
    ∃ db', contestRun db auditId (some r) = Except.ok db' ∧
      contestUpdate r a ∈ db'.audits ∧
      (contestUpdate r a).status = "contested" ∧
      (contestUpdate r a).contestation_reason = some r := by
  refine ⟨⟨_, rfl⟩, _, rfl, ?_, rfl, rfl⟩
  have h : contestUpdate r a =
      (fun x => if x.id = auditId then contestUpdate r x else x) a := by
    simp [hid]
  rw [h]
  exact List.mem_map_of_mem _ ha

/-- Witness for C6 on a concrete store with one audit record. -/
theorem contest_requires_reason_witness :
    (∃ msg, contestRun dbAudit 7 none = Except.error msg) ∧
    ∃ db', contestRun dbAudit 7 (some "valor excede tabela") = Except.ok db' ∧
      contestUpdate "valor excede tabela" auditContested ∈ db'.audits ∧
      (contestUpdate "valor excede tabela" auditContested).status = "contested" ∧
      (contestUpdate "valor excede tabela" auditContested).contestation_reason =
        some "valor excede tabela" :=
  contest_requires_reason dbAudit 7 auditContested
    (List.mem_singleton.mpr rfl) rfl "valor excede tabela"

/-! ### C7: parse failure of the service-value field -/

/-- C7 counterexample: `vTPrest = "abc"` is present and non-empty but not
parseable as a number; the extracted declared total is `NaN` (`none`),
not `0`. -/
theorem totalValue_parse_failure_not_zero :
    extractTotalValue (some "abc") = none ∧
    extractTotalValue (some "abc") ≠ some 0 := by
  decide

/-- C7 (amended): the declared-total extraction yields `0` when the
service-value field is absent or empty (the `|| "0"` default applies to
those falsy values only); a present non-empty field is parsed as-is, and
an unparseable one yields `NaN` (`none`) — not `0` — while no error is
raised. -/
theorem extractTotalValue_semantics :
    extractTotalValue none = some 0 ∧
    extractTotalValue (some "") = some 0 ∧
    extractTotalValue (some "abc") = none ∧
    ∀ s : String, extractTotalValue (some s) =
      if s = "" then some 0 else jsParseFloat s := by
  have hz : jsParseFloat "0" = some 0 := by
    simp +decide [jsParseFloat, signSplit, isJsSpace, digitsToNat]
  refine ⟨hz, hz, by decide, fun s => ?_⟩
  show jsParseFloat (if s = "" then "0" else s) =
    if s = "" then some 0 else jsParseFloat s
  by_cases h : s = ""
  · rw [if_pos h, if_pos h]
    exact hz
  · rw [if_neg h, if_neg h]

/-! ### C9: contest/waive never inspect the current status -/

/-- C9: none of the three operations inspects the record's current status:
for an audit record with ANY prior status (the fixture witnesses use
`contested`), waive persists it as `waived`, contest persists it as
`contested` overwriting the stored reason with the new one, and the
memory-calculation waive persists `ABONADO` — so the spec's "terminal"
states are escapable. -/
theorem waive_contest_ignore_prior_status (db : Db) (auditId : ℕ) (a : Audit)
    (ha : a ∈ db.audits) (hid : a.id = auditId) (r : String)
    (rows : List MemoryCalculation) (m : MemoryCalculation) (mid : ℕ)
    (hm : m ∈ rows) (hmid : m.id = mid) :
    (waiveUpdate a).status = "waived" ∧
    waiveUpdate a ∈ (waiveRun db auditId).audits ∧
    (contestUpdate r a).status = "contested" ∧
    (contestUpdate r a).contestation_reason = some r ∧
    (∀ db', contestRun db auditId (some r) = Except.ok db' →
      contestUpdate r a ∈ db'.audits) ∧
    (abonoUpdate m).status = "ABONADO" ∧
    abonoUpdate m ∈ memoryWaiveRun rows mid := by
  refine ⟨rfl, ?_, rfl, rfl, ?_, rfl, ?_⟩
  · have h : waiveUpdate a =
        (fun x => if x.id = auditId then waiveUpdate x else x) a := by
      simp [hid]
    rw [h]
    exact List.mem_map_of_mem _ ha
  · intro db' hdb
    have heq : Except.ok ({ db with
        audits := db.audits.map
          (fun x => if x.id = auditId then contestUpdate r x else x) } : Db) =
        Except.ok db' := hdb
    injection heq with h2
    rw [← h2]
    have h : contestUpdate r a =
        (fun x => if x.id = auditId then contestUpdate r x else x) a := by
      simp [hid]
    rw [h]
    exact List.mem_map_of_mem _ ha
  · have h : abonoUpdate m =
        (fun x => if x.id = mid then abonoUpdate x else x) m := by
      simp [hmid]
    rw [h]
    exact List.mem_map_of_mem _ hm

/-- Witness for C9: from the "terminal" statuses `contested` and
`ERRO DE CONCILIAÇÃO`, waive/contest/abono still overwrite. -/
theorem waive_contest_ignore_prior_status_witness :
    (waiveUpdate auditContested).status = "waived" ∧
    waiveUpdate auditContested ∈ (waiveRun dbAudit 7).audits ∧
    (contestUpdate "novo motivo" auditContested).status = "contested" ∧
    (contestUpdate "novo motivo" auditContested).contestation_reason =
      some "novo motivo" ∧
    (∀ db', contestRun dbAudit 7 (some "novo motivo") = Except.ok db' →
      contestUpdate "novo motivo" auditContested ∈ db'.audits) ∧
    (abonoUpdate memErro).status = "ABONADO" ∧
    abonoUpdate memErro ∈ memoryWaiveRun [memErro] 3 :=
  waive_contest_ignore_prior_status dbAudit 7 auditContested
    (List.mem_singleton.mpr rfl) rfl "novo motivo" [memErro] memErro 3
    (List.mem_singleton.mpr rfl) rfl

end TmsForja
